import Mathlib

/-!
Verification of the chiller payback calculator core.

The core of the application is a handful of pure functions over scalar
inputs: an energy-method selector with a fallback chain, three annual-energy
estimators (full-load EER, IPLV, 4-point part-load), an option evaluator,
and a payback derivation. We embed these over the rationals (exact
arithmetic) and prove the specified properties.
-/

namespace Chiller

/-- Mirrors `safe_positive` in the source: a value is usable iff it is
strictly positive (the zero sentinel means "not provided"). -/
def safe_positive (x : ℚ) : Bool := decide (0 < x)

/-- The method tag together with the parameters the selector returns for
that method (the `(method_used, details_dict)` tuple of the source). -/
inductive EnergyMethod where
  | partload (eer100 eer75 eer50 eer25 : ℚ)
  | iplv (iplv : ℚ)
  | full (eer100 : ℚ)
  deriving DecidableEq, Repr

/-- Mirrors `pick_energy_method` in the source: decide which estimation
method to use from the requested method string and the efficiency inputs. -/
def pick_energy_method (method_choice : String)
    (eer_full iplv eer75 eer50 eer25 : ℚ) : EnergyMethod :=
  let has_iplv := safe_positive iplv
  let has_partload :=
    safe_positive eer_full && safe_positive eer75 &&
    safe_positive eer50 && safe_positive eer25
  if method_choice = "Use 4-point part-load (25/50/75/100)" then
    if has_partload then .partload eer_full eer75 eer50 eer25
    else if has_iplv then .iplv iplv
    else .full eer_full
  else if method_choice = "Use IPLV only" then
    if has_iplv then .iplv iplv
    else .full eer_full
  else -- Auto (recommended)
    if has_partload then .partload eer_full eer75 eer50 eer25
    else if has_iplv then .iplv iplv
    else .full eer_full

/-- Mirrors `annual_kwh_full_eer` in the source. -/
def annual_kwh_full_eer (load_kw hours eer : ℚ) : ℚ :=
  (load_kw / eer) * hours

/-- Mirrors `annual_kwh_iplv` in the source: IPLV is treated as an
effective seasonal EER. -/
def annual_kwh_iplv (load_kw hours iplv : ℚ) : ℚ :=
  (load_kw / iplv) * hours

/-- The fixed bin time-weight for the 100% bin (`weights["100"]`). -/
def w100 : ℚ := 1/100

/-- The fixed bin time-weight for the 75% bin (`weights["75"]`). -/
def w75 : ℚ := 42/100

/-- The fixed bin time-weight for the 50% bin (`weights["50"]`). -/
def w50 : ℚ := 45/100

/-- The fixed bin time-weight for the 25% bin (`weights["25"]`). -/
def w25 : ℚ := 12/100

/-- Nominal bin load at 100% of installed capacity (`load_100` before
scaling in the source). -/
def bin_load_100 (cap : ℚ) : ℚ := cap * 1

/-- Nominal bin load at 75% of installed capacity (`load_75`). -/
def bin_load_75 (cap : ℚ) : ℚ := cap * (75/100)

/-- Nominal bin load at 50% of installed capacity (`load_50`). -/
def bin_load_50 (cap : ℚ) : ℚ := cap * (50/100)

/-- Nominal bin load at 25% of installed capacity (`load_25`). -/
def bin_load_25 (cap : ℚ) : ℚ := cap * (25/100)

/-- Weighted average of the nominal bin loads (`avg_from_bins` in the
source). -/
def avg_from_bins (cap : ℚ) : ℚ :=
  w100 * bin_load_100 cap + w75 * bin_load_75 cap +
  w50 * bin_load_50 cap + w25 * bin_load_25 cap

/-- The single scale factor applied to every bin load (`scale` in the
source): `load_kw / avg_from_bins` when the weighted average is positive,
otherwise the initial value 1. -/
def partload_scale (cap load_kw : ℚ) : ℚ :=
  if 0 < avg_from_bins cap then load_kw / avg_from_bins cap else 1

/-- Scaled bin load at 100% capacity (`load_100` after `load_100 *= scale`). -/
def scaled_load_100 (cap load_kw : ℚ) : ℚ :=
  bin_load_100 cap * partload_scale cap load_kw

/-- Scaled bin load at 75% capacity. -/
def scaled_load_75 (cap load_kw : ℚ) : ℚ :=
  bin_load_75 cap * partload_scale cap load_kw

/-- Scaled bin load at 50% capacity. -/
def scaled_load_50 (cap load_kw : ℚ) : ℚ :=
  bin_load_50 cap * partload_scale cap load_kw

/-- Scaled bin load at 25% capacity. -/
def scaled_load_25 (cap load_kw : ℚ) : ℚ :=
  bin_load_25 cap * partload_scale cap load_kw

/-- Mirrors `annual_kwh_partload_4pt` in the source. The Python function
reads `total_capacity_kw` from the enclosing scope; here it is the explicit
first argument `total_capacity_kw`. -/
def annual_kwh_partload_4pt
    (total_capacity_kw load_kw hours eer100 eer75 eer50 eer25 : ℚ) : ℚ :=
  (scaled_load_100 total_capacity_kw load_kw / eer100) * (hours * w100)
  + (scaled_load_75 total_capacity_kw load_kw / eer75) * (hours * w75)
  + (scaled_load_50 total_capacity_kw load_kw / eer50) * (hours * w50)
  + (scaled_load_25 total_capacity_kw load_kw / eer25) * (hours * w25)

/-- Modelled from the spec (section 4.2, five-step part-load algorithm):
nominal bin loads as capacity fractions, their weighted average with the
fixed weights, a scale factor guarded so that a zero weighted-average
nominal load yields scale = 1, one scalar applied to all bins, and the
weighted sum of (scaled bin load / bin EER) x (hours x bin weight). Used
only as the comparison point for the refinement claim about
`annual_kwh_partload_4pt`. -/
def spec_partload_energy
    (capacity avgLoad hours e100 e75 e50 e25 : ℚ) : ℚ :=
  let n100 := capacity * 1
  let n75 := capacity * (75/100)
  let n50 := capacity * (50/100)
  let n25 := capacity * (25/100)
  let wavg := (1/100) * n100 + (42/100) * n75 + (45/100) * n50 + (12/100) * n25
  let scale := if wavg = 0 then 1 else avgLoad / wavg
  (n100 * scale / e100) * (hours * (1/100))
  + (n75 * scale / e75) * (hours * (42/100))
  + (n50 * scale / e50) * (hours * (45/100))
  + (n25 * scale / e25) * (hours * (12/100))

/-- The sidebar inputs the core reads (plant sizing, schedule, economics);
in the source these are module-level variables. -/
structure Ctx where
  chillers : ℚ
  capacity_per_chiller_kw : ℚ
  load_factor : ℚ
  operating_months : ℚ
  days_per_month : ℚ
  gel_per_kwh : ℚ
  eur_to_gel : ℚ

/-- Mirrors `total_capacity_kw = chillers * capacity_per_chiller_kw`. -/
def total_capacity_kw (c : Ctx) : ℚ := c.chillers * c.capacity_per_chiller_kw

/-- Mirrors `avg_cooling_kw = total_capacity_kw * load_factor`. -/
def avg_cooling_kw (c : Ctx) : ℚ := total_capacity_kw c * c.load_factor

/-- Mirrors `operating_hours = operating_months * days_per_month * 24`. -/
def operating_hours (c : Ctx) : ℚ := c.operating_months * c.days_per_month * 24

/-- The dictionary returned by `compute_option` in the source. -/
structure OptionSummary where
  kwh : ℚ
  annual_cost_gel : ℚ
  capex_gel : ℚ
  avg_elec_kw : ℚ
  method : String
  deriving DecidableEq, Repr

/-- Mirrors `compute_option` in the source: pick the energy method, run the
corresponding estimator, then derive annual cost, total capital and average
electrical draw. -/
def compute_option (c : Ctx) (capex_eur eer_full iplv_v eer75 eer50 eer25 : ℚ)
    (method_choice : String) : OptionSummary :=
  let picked := pick_energy_method method_choice eer_full iplv_v eer75 eer50 eer25
  let kwh :=
    match picked with
    | .partload e100 e75 e50 e25 =>
        annual_kwh_partload_4pt (total_capacity_kw c) (avg_cooling_kw c)
          (operating_hours c) e100 e75 e50 e25
    | .iplv v => annual_kwh_iplv (avg_cooling_kw c) (operating_hours c) v
    | .full e100 => annual_kwh_full_eer (avg_cooling_kw c) (operating_hours c) e100
  let method_label :=
    match picked with
    | .partload _ _ _ _ => "4-point part-load"
    | .iplv _ => "IPLV"
    | .full _ => "Full-load EER"
  { kwh := kwh
    annual_cost_gel := kwh * c.gel_per_kwh
    capex_gel := capex_eur * c.chillers * c.eur_to_gel
    avg_elec_kw := if 0 < operating_hours c then kwh / operating_hours c else 0
    method := method_label }

/-- Mirrors `annual_savings_gel = opt2.annual_cost_gel - opt1.annual_cost_gel`
(savings if choosing option 1, the higher-efficiency option). -/
def annual_savings_gel (opt1 opt2 : OptionSummary) : ℚ :=
  opt2.annual_cost_gel - opt1.annual_cost_gel

/-- Mirrors `delta_capex_gel = opt1.capex_gel - opt2.capex_gel`. -/
def delta_capex_gel (opt1 opt2 : OptionSummary) : ℚ :=
  opt1.capex_gel - opt2.capex_gel

/-- Mirrors the `payback_calendar_months` computation: `None` unless
savings, incremental capital and operating months are all positive, in
which case `payback_years * 12` with `payback_years = delta_capex / savings`. -/
def payback_calendar_months (annual_savings delta_capex operating_mo : ℚ) :
    Option ℚ :=
  if 0 < annual_savings ∧ 0 < delta_capex ∧ 0 < operating_mo then
    let payback_years := delta_capex / annual_savings
    some (payback_years * 12)
  else none

/-- Mirrors the `payback_operating_months` computation: defined under the
same guard, as `delta_capex / (annual_savings / operating_months)`. -/
def payback_operating_months (annual_savings delta_capex operating_mo : ℚ) :
    Option ℚ :=
  if 0 < annual_savings ∧ 0 < delta_capex ∧ 0 < operating_mo then
    some (delta_capex / (annual_savings / operating_mo))
  else none

end Chiller
namespace Chiller

/-! ## Helper lemmas -/

/-- The weighted average of the nominal bin loads simplifies to
`29/50 * cap` (that is, `0.58 * cap`, the spec's `580` at `cap = 1000`). -/
theorem avg_from_bins_eq (cap : ℚ) : avg_from_bins cap = 29/50 * cap := by
  unfold avg_from_bins bin_load_100 bin_load_75 bin_load_50 bin_load_25 w100 w75 w50 w25
  ring

/-- Case characterization of the selector, shared by several proofs below:
an "IPLV only" request checks IPLV availability only; any other request
(the part-load request and the auto catch-all alike) prefers part-load,
then IPLV, then full-load. -/
theorem pick_energy_method_cases (mc : String) (f i e75 e50 e25 : ℚ) :
    pick_energy_method mc f i e75 e50 e25 =
      if mc = "Use IPLV only" then
        if 0 < i then EnergyMethod.iplv i else EnergyMethod.full f
      else if 0 < f ∧ 0 < e75 ∧ 0 < e50 ∧ 0 < e25 then
        EnergyMethod.partload f e75 e50 e25
      else if 0 < i then EnergyMethod.iplv i
      else EnergyMethod.full f := by
  unfold pick_energy_method safe_positive
  by_cases hpl : 0 < f ∧ 0 < e75 ∧ 0 < e50 ∧ 0 < e25 <;>
  by_cases hi : 0 < i <;>
  by_cases h1 : mc = "Use 4-point part-load (25/50/75/100)" <;>
  by_cases h2 : mc = "Use IPLV only" <;>
  simp_all [Bool.and_eq_true, decide_eq_true_eq, and_assoc]

/-- When the installed capacity is positive, the guarded scale factor is the
plain quotient `load / (29/50 * cap)`. -/
theorem partload_scale_pos_case (cap load : ℚ) (hcap : 0 < cap) :
    partload_scale cap load = load / (29/50 * cap) := by
  unfold partload_scale
  rw [avg_from_bins_eq]
  rw [if_pos (by positivity)]

/-! ## Claim theorems -/

/-- Claim C1: the energy-method selector implements the spec's decision
table exactly. A rating is available iff strictly positive; part-load is
available iff all four ratings are; a part-load or auto request returns
part-load when available, else IPLV when available, else full-load; an
IPLV-only request returns IPLV when available, else full-load; part-load
is never returned with a missing or non-positive rating, and the selector
is total (never raises). -/
theorem pick_energy_method_decision_table (mc : String) (f i e75 e50 e25 : ℚ) :
    pick_energy_method mc f i e75 e50 e25 =
      if mc = "Use IPLV only" then
        if 0 < i then EnergyMethod.iplv i else EnergyMethod.full f
      else if 0 < f ∧ 0 < e75 ∧ 0 < e50 ∧ 0 < e25 then
        EnergyMethod.partload f e75 e50 e25
      else if 0 < i then EnergyMethod.iplv i
      else EnergyMethod.full f :=
  pick_energy_method_cases mc f i e75 e50 e25

/-- Claim C2: for any non-negative installed capacity, the 4-point
part-load estimator agrees with the spec's five-step algorithm (nominal
bin loads, weighted average, guarded scale factor with scale = 1 on a zero
weighted average, one scalar applied to all bins, weighted sum of bin
energies), and the four fixed weights sum to exactly 1. -/
theorem annual_kwh_partload_4pt_follows_spec
    (cap load hours e100 e75 e50 e25 : ℚ) (hcap : 0 ≤ cap) :
    annual_kwh_partload_4pt cap load hours e100 e75 e50 e25 =
      spec_partload_energy cap load hours e100 e75 e50 e25 ∧
    w100 + w75 + w50 + w25 = 1 := by
  constructor
  · unfold annual_kwh_partload_4pt spec_partload_energy
    unfold scaled_load_100 scaled_load_75 scaled_load_50 scaled_load_25
    unfold partload_scale
    rw [avg_from_bins_eq]
    unfold bin_load_100 bin_load_75 bin_load_50 bin_load_25 w100 w75 w50 w25
    rcases eq_or_lt_of_le hcap with h | h
    · rw [← h]
      norm_num
    · rw [if_pos (by positivity)]
      dsimp only
      have hw : (1 / 100 : ℚ) * (cap * 1) + 42 / 100 * (cap * (75 / 100)) +
          45 / 100 * (cap * (50 / 100)) + 12 / 100 * (cap * (25 / 100)) ≠ 0 := by
        intro heq
        nlinarith
      rw [if_neg hw]
      ring
  · unfold w100 w75 w50 w25
    norm_num

/-- Witness for C2 at the spec's worked example (capacity 1000 kW, average
load 350 kW, 3600 hours, EERs 3.3/3.5/3.8/3.0). -/
theorem annual_kwh_partload_4pt_follows_spec_witness :
    (0:ℚ) ≤ 1000 ∧
    (annual_kwh_partload_4pt 1000 350 3600 (33/10) (35/10) (38/10) 3 =
       spec_partload_energy 1000 350 3600 (33/10) (35/10) (38/10) 3 ∧
     w100 + w75 + w50 + w25 = 1) :=
  ⟨by decide,
   annual_kwh_partload_4pt_follows_spec 1000 350 3600 (33/10) (35/10) (38/10) 3
     (by decide)⟩

/-- Claim C3: for every positive installed capacity and every average
load, the weighted average of the scaled bin loads equals the input
average cooling load exactly. -/
theorem scaled_bins_weighted_average (cap load : ℚ) (hcap : 0 < cap) :
    w100 * scaled_load_100 cap load + w75 * scaled_load_75 cap load +
    w50 * scaled_load_50 cap load + w25 * scaled_load_25 cap load = load := by
  unfold scaled_load_100 scaled_load_75 scaled_load_50 scaled_load_25
  rw [partload_scale_pos_case cap load hcap]
  unfold bin_load_100 bin_load_75 bin_load_50 bin_load_25 w100 w75 w50 w25
  field_simp
  ring

/-- Witness for C3 at capacity 1000 kW and average load 350 kW. -/
theorem scaled_bins_weighted_average_witness :
    (0:ℚ) < 1000 ∧
    (w100 * scaled_load_100 1000 350 + w75 * scaled_load_75 1000 350 +
     w50 * scaled_load_50 1000 350 + w25 * scaled_load_25 1000 350 = 350) :=
  ⟨by decide, scaled_bins_weighted_average 1000 350 (by decide)⟩

/-- Claim C4: annual savings is the lower-efficiency option's annual cost
minus the higher-efficiency option's; incremental capital is the
higher-efficiency option's capital minus the lower-efficiency option's;
and when savings, incremental capital and operating months are all
positive, payback in calendar months is (capital / savings) x 12 and
payback in operating months is capital / (savings / operating months). -/
theorem payback_quantities_formulas (o1 o2 : OptionSummary) (s dc m : ℚ)
    (hs : 0 < s) (hdc : 0 < dc) (hm : 0 < m) :
    annual_savings_gel o1 o2 = o2.annual_cost_gel - o1.annual_cost_gel ∧
    delta_capex_gel o1 o2 = o1.capex_gel - o2.capex_gel ∧
    payback_calendar_months s dc m = some (dc / s * 12) ∧
    payback_operating_months s dc m = some (dc / (s / m)) := by
  refine ⟨rfl, rfl, ?_, ?_⟩ <;>
    simp [payback_calendar_months, payback_operating_months, hs, hdc, hm]

/-- Witness for C4 at savings 100, incremental capital 1200, 5 operating
months, and two concrete option summaries. -/
theorem payback_quantities_formulas_witness :
    (0:ℚ) < 100 ∧ (0:ℚ) < 1200 ∧ (0:ℚ) < 5 ∧
    (annual_savings_gel ⟨0, 10, 30, 0, "x"⟩ ⟨0, 110, 20, 0, "x"⟩ =
       (110:ℚ) - 10 ∧
     delta_capex_gel ⟨0, 10, 30, 0, "x"⟩ ⟨0, 110, 20, 0, "x"⟩ = (30:ℚ) - 20 ∧
     payback_calendar_months 100 1200 5 = some (1200 / 100 * 12) ∧
     payback_operating_months 100 1200 5 = some (1200 / (100 / 5))) :=
  ⟨by decide, by decide, by decide,
   payback_quantities_formulas ⟨0, 10, 30, 0, "x"⟩ ⟨0, 110, 20, 0, "x"⟩
     100 1200 5 (by decide) (by decide) (by decide)⟩

/-- Claim C5: whenever both payback figures are defined, the operating-month
figure equals the calendar-month figure times operating months over 12. -/
theorem payback_operating_vs_calendar (s dc m : ℚ)
    (hs : 0 < s) (hdc : 0 < dc) (hm : 0 < m) :
    ∀ pcal pop : ℚ,
      payback_calendar_months s dc m = some pcal →
      payback_operating_months s dc m = some pop →
      pop = pcal * m / 12 := by
  intro pcal pop hcal hop
  simp [payback_calendar_months, payback_operating_months, hs, hdc, hm] at hcal hop
  subst hcal hop
  have hs0 : s ≠ 0 := ne_of_gt hs
  have hm0 : m ≠ 0 := ne_of_gt hm
  field_simp
  ring

/-- Witness for C5: at savings 100, capital 1200, 5 operating months the
figures are 144 calendar months and 60 operating months, and
60 = 144 x 5 / 12. -/
theorem payback_operating_vs_calendar_witness :
    (0:ℚ) < 100 ∧ (0:ℚ) < 1200 ∧ (0:ℚ) < 5 ∧ (60:ℚ) = 144 * 5 / 12 :=
  ⟨by decide, by decide, by decide,
   payback_operating_vs_calendar 100 1200 5 (by decide) (by decide) (by decide)
     144 60 (by norm_num [payback_calendar_months])
     (by norm_num [payback_operating_months])⟩

/-- Claim C6: when savings, incremental capital or operating months is
non-positive, both payback figures are absent (`none`) rather than zero,
infinite or negative. -/
theorem payback_undefined_when_nonpositive (s dc m : ℚ)
    (h : s ≤ 0 ∨ dc ≤ 0 ∨ m ≤ 0) :
    payback_calendar_months s dc m = none ∧
    payback_operating_months s dc m = none := by
  have hne : ¬(0 < s ∧ 0 < dc ∧ 0 < m) := by
    rintro ⟨a, b, c⟩
    rcases h with h | h | h <;> linarith
  exact ⟨if_neg hne, if_neg hne⟩

/-- Witness for C6 at annual savings -100 (the spec's no-payback example). -/
theorem payback_undefined_when_nonpositive_witness :
    ((-100:ℚ) ≤ 0 ∨ (5:ℚ) ≤ 0 ∨ (12:ℚ) ≤ 0) ∧
    (payback_calendar_months (-100) 5 12 = none ∧
     payback_operating_months (-100) 5 12 = none) :=
  ⟨Or.inl (by decide),
   payback_undefined_when_nonpositive (-100) 5 12 (Or.inl (by decide))⟩

/-- Claim C7: the full-load estimator returns (load / EER) x hours, the
IPLV estimator returns (load / IPLV) x hours, and at load 350 kW, 3600
hours and EER 3.3 the full-load result is 381,818.18 kWh within 0.01. -/
theorem estimator_formulas_and_example :
    (∀ load hours eer : ℚ, annual_kwh_full_eer load hours eer = (load / eer) * hours) ∧
    (∀ load hours ip : ℚ, annual_kwh_iplv load hours ip = (load / ip) * hours) ∧
    |annual_kwh_full_eer 350 3600 (33/10) - 38181818/100| ≤ 1/100 := by
  refine ⟨fun _ _ _ => rfl, fun _ _ _ => rfl, ?_⟩
  rw [abs_le]
  unfold annual_kwh_full_eer
  norm_num

/-- Claim C8: for every input the option evaluator runs the selector, then
the estimator matching the selected tag, and returns annual cost =
kWh x electricity price, total capital = capital price x unit count x
conversion rate, and average draw = kWh / hours when hours are positive
and 0 otherwise. -/
theorem compute_option_pipeline (c : Ctx) (capex_eur f iv e75 e50 e25 : ℚ)
    (mc : String) :
    (compute_option c capex_eur f iv e75 e50 e25 mc).kwh =
      (match pick_energy_method mc f iv e75 e50 e25 with
       | .partload a b d e =>
           annual_kwh_partload_4pt (total_capacity_kw c) (avg_cooling_kw c)
             (operating_hours c) a b d e
       | .iplv v => annual_kwh_iplv (avg_cooling_kw c) (operating_hours c) v
       | .full e => annual_kwh_full_eer (avg_cooling_kw c) (operating_hours c) e) ∧
    (compute_option c capex_eur f iv e75 e50 e25 mc).annual_cost_gel =
      (compute_option c capex_eur f iv e75 e50 e25 mc).kwh * c.gel_per_kwh ∧
    (compute_option c capex_eur f iv e75 e50 e25 mc).capex_gel =
      capex_eur * c.chillers * c.eur_to_gel ∧
    (compute_option c capex_eur f iv e75 e50 e25 mc).avg_elec_kw =
      (if 0 < operating_hours c then
        (compute_option c capex_eur f iv e75 e50 e25 mc).kwh / operating_hours c
       else 0) :=
  ⟨rfl, rfl, rfl, rfl⟩

/-- Claim C9: under the input preconditions (full-load EER positive, all
optional ratings non-negative with zero meaning absent) every divisor the
selected estimator will use is strictly positive; the bin-scaling
division is guarded: when the weighted-average nominal load is not
positive, the scale factor is the safe default 1; and the average-draw
division is guarded by the hours > 0 check: when the operating hours are
not positive, the option evaluator reports an average draw of 0 instead
of dividing. -/
theorem core_divisors_positive (mc : String) (f iv e75 e50 e25 : ℚ)
    (hf : 0 < f) (_hiplv : 0 ≤ iv) (_h75 : 0 ≤ e75) (_h50 : 0 ≤ e50)
    (_h25 : 0 ≤ e25) :
    (match pick_energy_method mc f iv e75 e50 e25 with
     | .partload a b d e => 0 < a ∧ 0 < b ∧ 0 < d ∧ 0 < e
     | .iplv v => 0 < v
     | .full e => 0 < e) ∧
    (∀ cap load : ℚ, ¬ 0 < avg_from_bins cap → partload_scale cap load = 1) ∧
    (∀ (c : Ctx) (capex_eur : ℚ), ¬ 0 < operating_hours c →
       (compute_option c capex_eur f iv e75 e50 e25 mc).avg_elec_kw = 0) := by
  refine ⟨?_, ?_, ?_⟩
  · rw [pick_energy_method_cases]
    split_ifs <;> simp_all
  · intro cap load hneg
    unfold partload_scale
    rw [if_neg hneg]
  · intro c capex_eur hneg
    unfold compute_option
    dsimp only
    rw [if_neg hneg]

/-- Witness for C9 with only the required full-load EER supplied (auto
request, EER 3.3, all optional ratings at the zero sentinel), plus the
scale guard at zero capacity and the average-draw guard at zero operating
months (hence zero operating hours). -/
theorem core_divisors_positive_witness :
    (0:ℚ) < 33/10 ∧ (0:ℚ) ≤ 0 ∧
    (match pick_energy_method "Auto (recommended)" (33/10) 0 0 0 0 with
     | .partload a b d e => 0 < a ∧ 0 < b ∧ 0 < d ∧ 0 < e
     | .iplv v => 0 < v
     | .full e => 0 < e) ∧
    partload_scale 0 7 = 1 ∧
    (compute_option ⟨1, 1000, 35/100, 0, 30, 3/10, 316/100⟩ 137000
       (33/10) 0 0 0 0 "Auto (recommended)").avg_elec_kw = 0 :=
  ⟨by norm_num, by decide,
   (core_divisors_positive "Auto (recommended)" (33/10) 0 0 0 0
      (by norm_num) (by decide) (by decide) (by decide) (by decide)).1,
   (core_divisors_positive "Auto (recommended)" (33/10) 0 0 0 0
      (by norm_num) (by decide) (by decide) (by decide) (by decide)).2.1 0 7
     (by norm_num [avg_from_bins_eq]),
   (core_divisors_positive "Auto (recommended)" (33/10) 0 0 0 0
      (by norm_num) (by decide) (by decide) (by decide) (by decide)).2.2
     ⟨1, 1000, 35/100, 0, 30, 3/10, 316/100⟩ 137000
     (by norm_num [operating_hours])⟩

/-- Claim C10: with a positive capacity and all four ratings equal to one
positive value E, the 4-point part-load estimator returns exactly the
full-load estimator's result at EER = E. -/
theorem partload_uniform_eer_collapses (cap load hours E : ℚ)
    (hcap : 0 < cap) (hE : 0 < E) :
    annual_kwh_partload_4pt cap load hours E E E E =
      annual_kwh_full_eer load hours E := by
  unfold annual_kwh_partload_4pt annual_kwh_full_eer
  unfold scaled_load_100 scaled_load_75 scaled_load_50 scaled_load_25
  rw [partload_scale_pos_case cap load hcap]
  unfold bin_load_100 bin_load_75 bin_load_50 bin_load_25 w100 w75 w50 w25
  have hc : cap ≠ 0 := ne_of_gt hcap
  field_simp
  ring

/-- Witness for C10 at capacity 1000 kW, load 350 kW, 3600 hours, E = 3.3. -/
theorem partload_uniform_eer_collapses_witness :
    (0:ℚ) < 1000 ∧ (0:ℚ) < 33/10 ∧
    annual_kwh_partload_4pt 1000 350 3600 (33/10) (33/10) (33/10) (33/10) =
      annual_kwh_full_eer 350 3600 (33/10) :=
  ⟨by decide, by norm_num,
   partload_uniform_eer_collapses 1000 350 3600 (33/10) (by decide) (by norm_num)⟩

end Chiller
